import Mathlib

/-!
Shallow embedding of the M-Pesa credential-sharing service
(src/main.py, src/utils.py, src/database.py, src/query.py, src/schema.py).

The persistent store is modelled as explicit lists of records; each HTTP
handler becomes a pure function from its (parsed) request body, the current
store contents and the outcomes of its outbound collaborators (gateway calls,
commit success) to its response together with the new store contents.
Python `None`-able JSON fields become `Option`; Python truthiness on strings
(`if not mid`) is `none`-or-empty.
-/

namespace Mpesa

/-- App row (database.py, class App): a registered tenant. -/
structure App where
  id : Nat
  name : String
  account_number : String
  api_key : String
  callback_url : Option String
deriving DecidableEq, Repr

/-- Credential row (database.py, class Credential): one paybill's gateway secrets, owned by an App. -/
structure Credential where
  id : Nat
  app_id : Nat
  credential_id : String
  name : String
  consumer_key : String
  consumer_secret : String
  business_short_code : String
  passkey : String
  initiator_name : String
  security_credential : String
  environment : String
  is_active : Bool
deriving DecidableEq, Repr

/-- StkPushTransaction row (database.py): a pending outbound push awaiting its callback.
Timestamps are abstract `Nat` instants. -/
structure StkPushTransaction where
  id : Nat
  credential_id : Nat
  merchant_request_id : String
  checkout_request_id : String
  phone_number : String
  account_reference : String
  amount : Int
  status : String
  result_code : Option Int
  result_desc : Option String
  created_at : Nat
  updated_at : Nat
deriving DecidableEq, Repr

/-- Transaction row (database.py, table paybill_offline): an inbound C2B ledger entry. -/
structure Transaction where
  id : Nat
  credential_id : Nat
  account_reference : String
  transaction_number : String
  trans_amount : Int
  first_name : String
  phone_number : Option String
  trans_time : String
  full_name : Option String
  paybill_no : Option String
deriving DecidableEq, Repr

/-- Update the first element of a list satisfying `p` with `f`, the way a
mutation of `query(...).filter(...).first()` followed by `commit()` behaves;
`none` when no element matches. -/
def updateFirst (p : α → Bool) (f : α → α) : List α → Option (List α)
  | [] => none
  | x :: xs => if p x then some (f x :: xs) else (updateFirst p f xs).map (fun l => x :: l)

/-- Parsed `stkCallback` object handed to the push-result callback
(main.py, mpesa_callback, lines 370-376): all fields reached via `.get`. -/
structure StkCallbackData where
  MerchantRequestID : Option String
  CheckoutRequestID : Option String
  ResultCode : Option Int
  ResultDesc : Option String
deriving DecidableEq, Repr

/-- Error outcomes of the push-result callback handler: HTTP 400
("Missing MerchantRequestID or CheckoutRequestID") and HTTP 404
("Transaction not found"). -/
inductive CallbackError where
  | missingIds
  | transactionNotFound
deriving DecidableEq, Repr

/-- Predicate of the correlation query (main.py lines 380-384): exact match on
the (merchant_request_id, checkout_request_id) pair. -/
def stkPairMatches (mid cid : String) (t : StkPushTransaction) : Bool :=
  t.merchant_request_id == mid && t.checkout_request_id == cid

/-- Terminal update applied to the matched row (main.py lines 388-392). -/
def resolveStk (cb : StkCallbackData) (now : Nat) (t : StkPushTransaction) : StkPushTransaction :=
  { t with
    status := "Done"
    result_code := cb.ResultCode
    result_desc := cb.ResultDesc
    updated_at := now }

/-- Push-result callback handler (main.py, mpesa_callback, lines 366-395).
`if not mid or not cid` treats a missing or empty identifier as absent; the
lookup-then-mutate of the first pair match is `updateFirst`. Returns the
response outcome together with the store after the request. -/
def mpesa_callback (cb : StkCallbackData) (now : Nat) (db : List StkPushTransaction) :
    Except CallbackError Unit × List StkPushTransaction :=
  match cb.MerchantRequestID, cb.CheckoutRequestID with
  | some mid, some cid =>
    if mid == "" || cid == "" then (.error .missingIds, db)
    else
      match updateFirst (stkPairMatches mid cid) (resolveStk cb now) db with
      | none => (.error .transactionNotFound, db)
      | some db' => (.ok (), db')
  | _, _ => (.error .missingIds, db)

/-- Body of POST /stkpush (schema.py, STKPushPayload). -/
structure STKPushPayload where
  credential_id : String
  amount : Int
  phoneNumber : String
  accountNumber : String
  transactionDescription : Option String
deriving DecidableEq, Repr

/-- Error outcomes of get_credential_for_app (main.py lines 78-87): HTTP 404
"Credential not found", HTTP 403 "Credential does not belong to this app",
HTTP 403 "Credential is inactive". Distinct constructors, matching the three
distinct detail messages. -/
inductive CredError where
  | notFound
  | forbidden
  | inactive
deriving DecidableEq, Repr

/-- Credential resolution (main.py, get_credential_for_app, lines 78-87):
look the credential up by credential_id alone, then check ownership, then
the is_active flag. -/
def get_credential_for_app (a : App) (credential_id : String) (creds : List Credential) :
    Except CredError Credential :=
  match creds.find? (fun c => c.credential_id == credential_id) with
  | none => .error .notFound
  | some cred =>
    if cred.app_id != a.id then .error .forbidden
    else if !cred.is_active then .error .inactive
    else .ok cred

/-- JSON object of the gateway's push-initiation response, fields reached by
`in` / `.get` (main.py lines 300-340). A missing key is `none`. -/
structure GatewayJson where
  errorCode : Option String
  errorMessage : Option String
  requestId : Option String
  MerchantRequestID : Option String
  CheckoutRequestID : Option String
  ResponseCode : Option String
  ResponseDescription : Option String
  CustomerMessage : Option String
deriving DecidableEq, Repr

/-- Outcome of the outbound HTTP POST to the gateway (main.py lines 269-297):
a transport-level exception, or a response whose body is either not JSON
(`none`) or a parsed JSON object. -/
inductive GatewayResult where
  | transportError
  | response (status : Nat) (body : Option GatewayJson)
deriving DecidableEq, Repr

/-- Failure kind of the token fetch (main.py lines 243-250): a ValueError from
utils.authenticator maps to HTTP 400, any other exception to HTTP 500. -/
inductive OAuthErr where
  | valueErr
  | otherErr
deriving DecidableEq, Repr

/-- Error outcomes of POST /stkpush (main.py, stk_push, lines 213-363), one
constructor per raise site. -/
inductive PushError where
  | credError (e : CredError)
  | oauthFailed (e : OAuthErr)
  | networkError
  | invalidJson (status : Nat)
  | safaricomError
  | missingMerchantRequestID
  | businessError
  | saveFailed
deriving DecidableEq, Repr

/-- Push initiation (main.py, stk_push, lines 213-363). The outcomes of the
outbound collaborators are explicit inputs: `tokenResult` for step 2's token
fetch, `gw` for step 3's gateway POST, `persistOk` for step 4's commit. A
response missing CheckoutRequestID raises a KeyError inside step 4's try and
is reported as the save failure (HTTP 500), like a failing commit. Returns
the HTTP outcome together with the store after the request. -/
def stk_push (a : App) (payload : STKPushPayload) (creds : List Credential)
    (tokenResult : Except OAuthErr String) (gw : GatewayResult) (persistOk : Bool)
    (nextId now : Nat) (db : List StkPushTransaction) :
    Except PushError GatewayJson × List StkPushTransaction :=
  match get_credential_for_app a payload.credential_id creds with
  | .error e => (.error (.credError e), db)
  | .ok cred =>
    match tokenResult with
    | .error e => (.error (.oauthFailed e), db)
    | .ok _token =>
      match gw with
      | .transportError => (.error .networkError, db)
      | .response status none => (.error (.invalidJson status), db)
      | .response _ (some r) =>
        if r.errorCode.isSome || r.requestId.isSome then (.error .safaricomError, db)
        else
          match r.MerchantRequestID with
          | none => (.error .missingMerchantRequestID, db)
          | some mid =>
            if r.ResponseCode.isSome && r.ResponseCode != some "0" then
              (.error .businessError, db)
            else
              match r.CheckoutRequestID with
              | none => (.error .saveFailed, db)
              | some cid =>
                if persistOk then
                  (.ok r,
                   db ++ [{ id := nextId
                            credential_id := cred.id
                            merchant_request_id := mid
                            checkout_request_id := cid
                            phone_number := payload.phoneNumber
                            account_reference := payload.accountNumber
                            amount := payload.amount
                            status := "Pending"
                            result_code := none
                            result_desc := none
                            created_at := now
                            updated_at := now }])
                else (.error .saveFailed, db)

/-- Fixed acknowledgment body the C2B endpoints return to the gateway. -/
structure Ack where
  ResultCode : Int
  ResultDesc : String
deriving DecidableEq, Repr

/-- Python str.lower() (utils.py line 8, main.py line 474), on the character
list so that concrete instances evaluate. -/
def pyLower (s : String) : String := String.mk (s.data.map Char.toLower)

/-- Python `x or y` on an optional string: `y` when `x` is absent or empty. -/
def pyOr (a : Option String) (b : String) : String :=
  match a with
  | some s => if s == "" then b else s
  | none => b

/-- Body of a C2B confirmation notification, fields reached by `.get`
(main.py, confirmation_url, lines 444-478). -/
structure ConfirmationBody where
  BusinessShortCode : Option String
  ShortCode : Option String
  TransID : Option String
  TransAmount : Option String
  FirstName : Option String
  TransTime : Option String
  BillRefNumber : Option String
deriving DecidableEq, Repr

/-- Models `float(body.get("TransAmount", 0))` (main.py line 452): a missing
key defaults to 0; a string that does not parse raises, modelled as `none`
(integer-string stand-in for the numeric parse). -/
def parseTransAmount (v : Option String) : Option Int :=
  match v with
  | none => some 0
  | some s => s.toInt?

/-- C2B confirmation handler (main.py, confirmation_url, lines 444-478).
`dbOk` is whether the ledger insert commits (its exception is swallowed by
the bare except), `queryOk` whether the status query succeeds (also
swallowed), `nextId` the row id the store assigns. Returns the acknowledgment,
the ledger after the request, and the scheduled background forward
(callback_url, body) when one is added. -/
def confirmation_url (body : ConfirmationBody) (creds : List Credential) (apps : List App)
    (dbOk queryOk : Bool) (nextId : Nat) (ledger : List Transaction) :
    Ack × List Transaction × Option (String × ConfirmationBody) :=
  let shortcode := pyOr body.BusinessShortCode (pyOr body.ShortCode "")
  match creds.find? (fun c => c.business_short_code == shortcode) with
  | none => ({ ResultCode := 0, ResultDesc := "Accepted" }, ledger, none)
  | some cred =>
    let ledger' :=
      match parseTransAmount body.TransAmount with
      | none => ledger
      | some amt =>
        if dbOk then
          ledger ++ [{ id := nextId
                       credential_id := cred.id
                       account_reference := body.BillRefNumber.getD ""
                       transaction_number := body.TransID.getD ""
                       trans_amount := amt
                       first_name := body.FirstName.getD ""
                       phone_number := none
                       trans_time := body.TransTime.getD ""
                       full_name := none
                       paybill_no := some shortcode }]
        else ledger
    let _ := queryOk
    let bill_ref := body.BillRefNumber.getD ""
    let forward :=
      if 3 ≤ bill_ref.length then
        match apps.find? (fun ap => ap.account_number == pyLower (bill_ref.take 3)) with
        | some ap =>
          match ap.callback_url with
          | some u => if u == "" then none else some (u, body)
          | none => none
        | none => none
      else none
    ({ ResultCode := 0, ResultDesc := "Accepted" }, ledger', forward)

/-- One element of the ResultParameter array (main.py lines 490-495): a JSON
dict with Key/Value, or a non-dict element the `isinstance` check skips. -/
inductive PItem where
  | dict (Key : Option String) (Value : Option String)
  | nonDict
deriving DecidableEq, Repr

/-- Nested `ResultParameters` object of a status-query result body. -/
structure ResultParametersObj where
  ResultParameter : Option (List PItem)
deriving DecidableEq, Repr

/-- Nested `Result` object of a status-query result body. -/
structure ResultSection where
  ResultCode : Option Int
  ResultParameters : Option ResultParametersObj
deriving DecidableEq, Repr

/-- Body of a status-query result notification (main.py, result_url). -/
structure ResultBody where
  Result : Option ResultSection
deriving DecidableEq, Repr

/-- ResultCode the handler reads: `(body.get("Result") or {}).get("ResultCode")`. -/
def resultCodeOf (body : ResultBody) : Option Int :=
  match body.Result with
  | none => none
  | some res => res.ResultCode

/-- Parameter list the handler reads:
`(res.get("ResultParameters") or {}).get("ResultParameter") or []`. -/
def paramsOf (body : ResultBody) : List PItem :=
  match body.Result with
  | none => []
  | some res =>
    match res.ResultParameters with
    | none => []
    | some rp => rp.ResultParameter.getD []

/-- The for-loop over the parameter list (main.py lines 490-495): the last
ReceiptNo and last DebitPartyName values win; non-dict elements are skipped. -/
def scanParams (params : List PItem) : Option String × Option String :=
  params.foldl
    (fun acc p =>
      match p with
      | .nonDict => acc
      | .dict k v =>
        if k == some "ReceiptNo" then (v, acc.2)
        else if k == some "DebitPartyName" then (acc.1, v)
        else acc)
    (none, none)

/-- Whether `sep` is an initial segment of `l` (character lists). -/
def isPrefixChars : List Char → List Char → Bool
  | [], _ => true
  | _ :: _, [] => false
  | a :: as, b :: bs => a == b && isPrefixChars as bs

/-- Split a character list at the first occurrence of `sep`: the part before
it and the part after it, or `none` when `sep` does not occur. -/
def splitFirstChars (sep : List Char) : List Char → Option (List Char × List Char)
  | [] => none
  | c :: cs =>
    if isPrefixChars sep (c :: cs) then some ([], (c :: cs).drop sep.length)
    else
      match splitFirstChars sep cs with
      | none => none
      | some (before, after) => some (c :: before, after)

/-- Python `s.split(sep, 1)` for a non-empty separator: at most one split,
at the first occurrence; the whole string when the separator is absent. -/
def pySplit1 (sep s : String) : List String :=
  match splitFirstChars sep.data s.data with
  | none => [s]
  | some (before, after) => [String.mk before, String.mk after]

/-- Python `s.strip()`: surrounding whitespace removed, on the character
list so that concrete instances evaluate. -/
def pyStrip (s : String) : String :=
  String.mk (((s.data.dropWhile Char.isWhitespace).reverse.dropWhile Char.isWhitespace).reverse)

/-- Enrichment write applied to the matched ledger entry (main.py lines
499-501): split the debit-party string on " - " once; phone gets the first
segment stripped, full name the stripped remainder when one exists. -/
def enrich (debit_party : String) (t : Transaction) : Transaction :=
  let parts := pySplit1 " - " debit_party
  { t with
    phone_number := match parts.head? with | some h => some (pyStrip h) | none => none
    full_name := match parts.get? 1 with | some s => some (pyStrip s) | none => none }

/-- Status-query result handler (main.py, result_url, lines 481-504). The
`.first()` lookup by transaction_number and the guarded mutation are fused
into `updateFirst`; a falsy (absent or empty) receipt number or debit party
skips enrichment, as does a missing ledger match. Returns the acknowledgment
and the ledger after the request. -/
def result_url (body : ResultBody) (ledger : List Transaction) : Ack × List Transaction :=
  if resultCodeOf body != some 0 then ({ ResultCode := 0, ResultDesc := "Accepted" }, ledger)
  else
    match scanParams (paramsOf body) with
    | (none, _) => ({ ResultCode := 0, ResultDesc := "Accepted" }, ledger)
    | (some rno, debit_party) =>
      if rno == "" then ({ ResultCode := 0, ResultDesc := "Accepted" }, ledger)
      else
        match debit_party with
        | none => ({ ResultCode := 0, ResultDesc := "Accepted" }, ledger)
        | some dp =>
          if dp == "" then ({ ResultCode := 0, ResultDesc := "Accepted" }, ledger)
          else
            match updateFirst (fun t => t.transaction_number == rno) (enrich dp) ledger with
            | none => ({ ResultCode := 0, ResultDesc := "Accepted" }, ledger)
            | some ledger' => ({ ResultCode := 0, ResultDesc := "Accepted" }, ledger')

/-- Timeout notification handler (main.py, timeout_url, lines 507-509). -/
def timeout_url : Ack := { ResultCode := 0, ResultDesc := "Accepted" }

/-- Environment-specific gateway base URL (utils.py, get_base_url, lines 7-10). -/
def get_base_url (environment : String) : String :=
  if pyLower environment == "sandbox" then "https://sandbox.safaricom.co.ke/"
  else "https://api.safaricom.co.ke/"

/-- URL the OAuth token request is sent to (utils.py, authenticator, lines
13-18), including the reassignment of base_url on line 16 that shadows the
caller-supplied value with the production host. -/
def authenticatorUrl (base_url : String) : String :=
  let base_url := "https://api.safaricom.co.ke/"
  base_url ++ "oauth/v1/generate?grant_type=client_credentials"

theorem updateFirst_eq_none_iff (p : α → Bool) (f : α → α) (l : List α) :
    updateFirst p f l = none ↔ ∀ x ∈ l, p x = false := by
  induction l with
  | nil => simp [updateFirst]
  | cons x xs ih =>
    cases hp : p x with
    | true => simp [updateFirst, hp]
    | false => simp [updateFirst, hp, ih]

theorem updateFirst_append_cons (p : α → Bool) (f : α → α) (l₁ l₂ : List α) (x : α)
    (h₁ : ∀ y ∈ l₁, p y = false) (hx : p x = true) :
    updateFirst p f (l₁ ++ x :: l₂) = some (l₁ ++ f x :: l₂) := by
  induction l₁ with
  | nil => simp [updateFirst, hx]
  | cons a l ih =>
    have ha : p a = false := h₁ a (by simp)
    have := ih (fun y hy => h₁ y (by simp [hy]))
    simp [updateFirst, ha, this]

theorem updateFirst_eq_some_decomp (p : α → Bool) (f : α → α) :
    ∀ (l l' : List α), updateFirst p f l = some l' →
      ∃ l₁ x l₂, l = l₁ ++ x :: l₂ ∧ (∀ y ∈ l₁, p y = false) ∧ p x = true ∧
        l' = l₁ ++ f x :: l₂ := by
  intro l
  induction l with
  | nil => intro l' h; simp [updateFirst] at h
  | cons a as ih =>
    intro l' h
    simp only [updateFirst] at h
    split at h
    case isTrue hp =>
      injection h with h
      exact ⟨[], a, as, rfl, by simp, hp, h.symm⟩
    case isFalse hp =>
      have hp' : p a = false := by simpa using hp
      cases hm : updateFirst p f as with
      | none => rw [hm] at h; simp at h
      | some m =>
        rw [hm] at h
        have h2 : a :: m = l' := by
          have hsome : some (a :: m) = some l' := h
          injection hsome
        obtain ⟨l₁, x, l₂, rfl, h1, hx2, rfl⟩ := ih m hm
        refine ⟨a :: l₁, x, l₂, by simp, ?_, hx2, ?_⟩
        · intro y hy
          rcases List.mem_cons.mp hy with rfl | hy
          · exact hp'
          · exact h1 y hy
        · rw [← h2]; simp

theorem get?_append_cons_ne (l₁ l₂ : List α) (x y : α) (i : Nat)
    (h : i ≠ l₁.length) :
    (l₁ ++ x :: l₂).get? i = (l₁ ++ y :: l₂).get? i := by
  induction l₁ generalizing i with
  | nil =>
    cases i with
    | zero => exact absurd rfl h
    | succ n => simp
  | cons a as ih =>
    cases i with
    | zero => simp
    | succ n =>
      simp only [List.cons_append, List.get?_cons_succ]
      exact ih n (fun hn => h (by simp [hn]))

theorem mpesa_callback_success (cb : StkCallbackData) (mid cid : String) (now : Nat)
    (l₁ l₂ : List StkPushTransaction) (t : StkPushTransaction)
    (hmid : cb.MerchantRequestID = some mid) (hcid : cb.CheckoutRequestID = some cid)
    (hm : mid ≠ "") (hc : cid ≠ "")
    (hpm : t.merchant_request_id = mid) (hpc : t.checkout_request_id = cid)
    (hbefore : ∀ y ∈ l₁, stkPairMatches mid cid y = false) :
    mpesa_callback cb now (l₁ ++ t :: l₂) = (.ok (), l₁ ++ resolveStk cb now t :: l₂) := by
  have ht : stkPairMatches mid cid t = true := by
    simp [stkPairMatches, hpm, hpc]
  have hupd := updateFirst_append_cons (stkPairMatches mid cid) (resolveStk cb now)
    l₁ l₂ t hbefore ht
  have hguard : (mid == "" || cid == "") = false := by
    simp [hm, hc]
  unfold mpesa_callback
  rw [hmid, hcid]
  simp only [hguard, Bool.false_eq_true, if_false, hupd]

theorem mpesa_callback_nomatch (cb : StkCallbackData) (mid cid : String) (now : Nat)
    (db : List StkPushTransaction)
    (hmid : cb.MerchantRequestID = some mid) (hcid : cb.CheckoutRequestID = some cid)
    (hm : mid ≠ "") (hc : cid ≠ "")
    (hnone : ∀ y ∈ db, stkPairMatches mid cid y = false) :
    mpesa_callback cb now db = (.error .transactionNotFound, db) := by
  have hupd : updateFirst (stkPairMatches mid cid) (resolveStk cb now) db = none :=
    (updateFirst_eq_none_iff _ _ _).mpr hnone
  have hguard : (mid == "" || cid == "") = false := by
    simp [hm, hc]
  unfold mpesa_callback
  rw [hmid, hcid]
  simp only [hguard, Bool.false_eq_true, if_false, hupd]

/-- C1: on a store whose one record carrying the callback's identifier pair is
`t` (status Pending), the callback handler sets that record's status to Done
and copies the callback's result code and description verbatim, leaving every
other record unchanged; a callback whose pair matches no record fails with
transactionNotFound (HTTP 404), creates no record and returns the store
unchanged. -/
theorem stk_callback_correlation
    (cb : StkCallbackData) (mid cid : String) (now : Nat)
    (l₁ l₂ : List StkPushTransaction) (t : StkPushTransaction)
    (hmid : cb.MerchantRequestID = some mid) (hcid : cb.CheckoutRequestID = some cid)
    (hm : mid ≠ "") (hc : cid ≠ "")
    (hpm : t.merchant_request_id = mid) (hpc : t.checkout_request_id = cid)
    (hstatus : t.status = "Pending")
    (hbefore : ∀ y ∈ l₁, stkPairMatches mid cid y = false) :
    mpesa_callback cb now (l₁ ++ t :: l₂) =
      (.ok (),
       l₁ ++
         { t with
             status := "Done"
             result_code := cb.ResultCode
             result_desc := cb.ResultDesc
             updated_at := now } :: l₂)
    ∧ ∀ db : List StkPushTransaction, (∀ y ∈ db, stkPairMatches mid cid y = false) →
        mpesa_callback cb now db = (.error .transactionNotFound, db) := by
  refine ⟨?_, ?_⟩
  · exact mpesa_callback_success cb mid cid now l₁ l₂ t hmid hcid hm hc hpm hpc hbefore
  · intro db hnone
    exact mpesa_callback_nomatch cb mid cid now db hmid hcid hm hc hnone

/-- C1 witness: the spec's own example, pair (M1, C1) with result code 0. -/
theorem stk_callback_correlation_witness :
    mpesa_callback ⟨some "M1", some "C1", some 0, some "ok"⟩ 5
      ([] ++ ⟨1, 1, "M1", "C1", "254700000000", "ref", 10, "Pending", none, none, 0, 0⟩ :: []) =
      (.ok (), [] ++ ⟨1, 1, "M1", "C1", "254700000000", "ref", 10, "Done",
        some 0, some "ok", 0, 5⟩ :: [])
    ∧ ∀ db : List StkPushTransaction, (∀ y ∈ db, stkPairMatches "M1" "C1" y = false) →
        mpesa_callback ⟨some "M1", some "C1", some 0, some "ok"⟩ 5 db =
          (.error .transactionNotFound, db) :=
  stk_callback_correlation ⟨some "M1", some "C1", some 0, some "ok"⟩ "M1" "C1" 5
    [] [] ⟨1, 1, "M1", "C1", "254700000000", "ref", 10, "Pending", none, none, 0, 0⟩
    rfl rfl (by decide) (by decide) rfl rfl rfl (by simp)

/-- C3 counterexample: two stored records share the pair (M1, C1); the
callback with that pair is not rejected as ambiguous — it reports success and
silently updates the first of the two records. -/
theorem ambiguous_pair_counterexample :
    mpesa_callback ⟨some "M1", some "C1", some 0, some "ok"⟩ 9
      [⟨1, 1, "M1", "C1", "p", "a", 5, "Pending", none, none, 0, 0⟩,
       ⟨2, 1, "M1", "C1", "q", "b", 7, "Pending", none, none, 0, 0⟩] =
      (.ok (),
       [⟨1, 1, "M1", "C1", "p", "a", 5, "Done", some 0, some "ok", 0, 9⟩,
        ⟨2, 1, "M1", "C1", "q", "b", 7, "Pending", none, none, 0, 0⟩]) := by
  rfl

/-- C3 amended: when the callback's pair matches more than one stored record
(`t` first, `u` a later duplicate), the handler does not treat the ambiguity
as an error: it reports success and updates the first match, leaving every
later record — the duplicate included — unchanged. -/
theorem ambiguous_pair_updates_first
    (cb : StkCallbackData) (mid cid : String) (now : Nat)
    (l₁ l₂ : List StkPushTransaction) (t u : StkPushTransaction)
    (hmid : cb.MerchantRequestID = some mid) (hcid : cb.CheckoutRequestID = some cid)
    (hm : mid ≠ "") (hc : cid ≠ "")
    (hpm : t.merchant_request_id = mid) (hpc : t.checkout_request_id = cid)
    (hbefore : ∀ y ∈ l₁, stkPairMatches mid cid y = false)
    (hu : u ∈ l₂) (humatch : stkPairMatches mid cid u = true) :
    mpesa_callback cb now (l₁ ++ t :: l₂) = (.ok (), l₁ ++ resolveStk cb now t :: l₂) :=
  mpesa_callback_success cb mid cid now l₁ l₂ t hmid hcid hm hc hpm hpc hbefore

/-- C3 amended witness: the concrete two-duplicate store again, through the
general theorem. -/
theorem ambiguous_pair_updates_first_witness :
    mpesa_callback ⟨some "M1", some "C1", some 0, some "ok"⟩ 9
      ([] ++ ⟨1, 1, "M1", "C1", "p", "a", 5, "Pending", none, none, 0, 0⟩ ::
        [⟨2, 1, "M1", "C1", "q", "b", 7, "Pending", none, none, 0, 0⟩]) =
      (.ok (), [] ++ resolveStk ⟨some "M1", some "C1", some 0, some "ok"⟩ 9
        ⟨1, 1, "M1", "C1", "p", "a", 5, "Pending", none, none, 0, 0⟩ ::
        [⟨2, 1, "M1", "C1", "q", "b", 7, "Pending", none, none, 0, 0⟩]) :=
  ambiguous_pair_updates_first ⟨some "M1", some "C1", some 0, some "ok"⟩ "M1" "C1" 9
    [] [⟨2, 1, "M1", "C1", "q", "b", 7, "Pending", none, none, 0, 0⟩]
    ⟨1, 1, "M1", "C1", "p", "a", 5, "Pending", none, none, 0, 0⟩
    ⟨2, 1, "M1", "C1", "q", "b", 7, "Pending", none, none, 0, 0⟩
    rfl rfl (by decide) (by decide) rfl rfl (by simp) (by simp) (by decide)

/-- C9: reapplying the same callback to the already-resolved record
re-executes the same update harmlessly: the second application succeeds and
writes the same status, result code and result description, and when the two
applications carry the same update timestamp the store is left exactly as the
first application left it. -/
theorem stk_callback_idempotent
    (cb : StkCallbackData) (mid cid : String) (t₁ t₂ : Nat)
    (l₁ l₂ : List StkPushTransaction) (t : StkPushTransaction)
    (hmid : cb.MerchantRequestID = some mid) (hcid : cb.CheckoutRequestID = some cid)
    (hm : mid ≠ "") (hc : cid ≠ "")
    (hpm : t.merchant_request_id = mid) (hpc : t.checkout_request_id = cid)
    (hbefore : ∀ y ∈ l₁, stkPairMatches mid cid y = false) :
    mpesa_callback cb t₂ (mpesa_callback cb t₁ (l₁ ++ t :: l₂)).2 =
      (.ok (),
       l₁ ++
         { t with
             status := "Done"
             result_code := cb.ResultCode
             result_desc := cb.ResultDesc
             updated_at := t₂ } :: l₂)
    ∧ (t₂ = t₁ →
        mpesa_callback cb t₂ (mpesa_callback cb t₁ (l₁ ++ t :: l₂)).2 =
          mpesa_callback cb t₁ (l₁ ++ t :: l₂)) := by
  have h₁ := mpesa_callback_success cb mid cid t₁ l₁ l₂ t hmid hcid hm hc hpm hpc hbefore
  have h₂ := mpesa_callback_success cb mid cid t₂ l₁ l₂ (resolveStk cb t₁ t)
    hmid hcid hm hc hpm hpc hbefore
  have hre : resolveStk cb t₂ (resolveStk cb t₁ t) =
      { t with
          status := "Done"
          result_code := cb.ResultCode
          result_desc := cb.ResultDesc
          updated_at := t₂ } := rfl
  refine ⟨?_, ?_⟩
  · rw [h₁]
    simpa [hre] using h₂
  · intro ht
    subst ht
    rw [h₁]
    simpa [hre] using h₂

/-- C9 witness: the same concrete callback applied twice at the same instant. -/
theorem stk_callback_idempotent_witness :
    mpesa_callback ⟨some "M1", some "C1", some 0, some "ok"⟩ 5
      (mpesa_callback ⟨some "M1", some "C1", some 0, some "ok"⟩ 5
        ([] ++ ⟨1, 1, "M1", "C1", "p", "a", 10, "Pending", none, none, 0, 0⟩ :: [])).2 =
      (.ok (), [] ++ ⟨1, 1, "M1", "C1", "p", "a", 10, "Done", some 0, some "ok", 0, 5⟩ :: [])
    ∧ (5 = 5 →
        mpesa_callback ⟨some "M1", some "C1", some 0, some "ok"⟩ 5
          (mpesa_callback ⟨some "M1", some "C1", some 0, some "ok"⟩ 5
            ([] ++ ⟨1, 1, "M1", "C1", "p", "a", 10, "Pending", none, none, 0, 0⟩ :: [])).2 =
          mpesa_callback ⟨some "M1", some "C1", some 0, some "ok"⟩ 5
            ([] ++ ⟨1, 1, "M1", "C1", "p", "a", 10, "Pending", none, none, 0, 0⟩ :: [])) :=
  stk_callback_idempotent ⟨some "M1", some "C1", some 0, some "ok"⟩ "M1" "C1" 5 5
    [] [] ⟨1, 1, "M1", "C1", "p", "a", 10, "Pending", none, none, 0, 0⟩
    rfl rfl (by decide) (by decide) rfl rfl (by simp)

theorem stk_push_cases (a : App) (payload : STKPushPayload) (creds : List Credential)
    (tokenResult : Except OAuthErr String) (gw : GatewayResult) (persistOk : Bool)
    (nextId now : Nat) (db : List StkPushTransaction) :
    (stk_push a payload creds tokenResult gw persistOk nextId now db).2 = db ∨
    ∃ status r row,
      gw = .response status (some r) ∧ r.MerchantRequestID.isSome = true ∧
      stk_push a payload creds tokenResult gw persistOk nextId now db = (.ok r, db ++ [row]) ∧
      row.status = "Pending" := by
  unfold stk_push
  repeat' first | exact Or.inl rfl | split
  refine Or.inr ⟨_, _, _, rfl, ?_, rfl, rfl⟩
  simp_all

/-- C2: the push-initiation handler creates no PendingPush row on any outcome
other than full success — credential-resolution failure, token-fetch failure,
transport failure, non-JSON body, gateway error response, response missing
MerchantRequestID, non-zero ResponseCode, failing save — and whenever the
store did change, the gateway response was a JSON body containing
MerchantRequestID and exactly one Pending row was appended. -/
theorem pending_push_creation_guard (a : App) (payload : STKPushPayload)
    (creds : List Credential) (tokenResult : Except OAuthErr String) (gw : GatewayResult)
    (persistOk : Bool) (nextId now : Nat) (db : List StkPushTransaction) :
    (∀ e, (stk_push a payload creds tokenResult gw persistOk nextId now db).1 = .error e →
       (stk_push a payload creds tokenResult gw persistOk nextId now db).2 = db)
    ∧ ((stk_push a payload creds tokenResult gw persistOk nextId now db).2 ≠ db →
       ∃ status r row,
         gw = .response status (some r) ∧ r.MerchantRequestID.isSome = true ∧
         (stk_push a payload creds tokenResult gw persistOk nextId now db).1 = .ok r ∧
         (stk_push a payload creds tokenResult gw persistOk nextId now db).2 = db ++ [row] ∧
         row.status = "Pending") := by
  rcases stk_push_cases a payload creds tokenResult gw persistOk nextId now db with
    h | ⟨status, r, row, hgw, hsome, hpush, hrow⟩
  · exact ⟨fun _ _ => h, fun hne => absurd h hne⟩
  · constructor
    · intro e he
      rw [hpush] at he
      simp at he
    · intro _
      exact ⟨status, r, row, hgw, hsome, by rw [hpush], by rw [hpush], hrow⟩

theorem get_credential_forbidden (b : App) (cid : String) (creds : List Credential)
    (c : Credential) (hfind : creds.find? (fun x => x.credential_id == cid) = some c)
    (hne : c.app_id ≠ b.id) :
    get_credential_for_app b cid creds = .error .forbidden := by
  unfold get_credential_for_app
  rw [hfind]
  simp [hne]

theorem find?_eq_of_mem_unique (creds : List Credential) (c : Credential)
    (hmem : c ∈ creds)
    (huniq : ∀ c' ∈ creds, c'.credential_id = c.credential_id → c' = c) :
    creds.find? (fun x => x.credential_id == c.credential_id) = some c := by
  induction creds with
  | nil => cases hmem
  | cons a as ih =>
    rcases List.mem_cons.mp hmem with rfl | hmem'
    · simp [List.find?]
    · by_cases ha : a.credential_id = c.credential_id
      · have hac : a = c := huniq a (by simp) ha
        subst hac
        simp [List.find?]
      · have hb : (a.credential_id == c.credential_id) = false := by
          simp [ha]
        rw [List.find?_cons_of_neg _ (by simp [hb])]
        exact ih hmem' (fun c' hc' => huniq c' (by simp [hc']))

/-- C7: credential resolution distinguishes three failure kinds — no
credential with the id gives notFound; a credential owned by a different
tenant gives forbidden (in particular, any credential of tenant A resolved
under tenant B with a globally unique id gives forbidden, never notFound); an
owned but inactive credential gives inactive — and the three error values are
pairwise distinct, so a caller can tell them apart. -/
theorem resolve_credential_trichotomy (b : App) (cid : String) (creds : List Credential) :
    (creds.find? (fun c => c.credential_id == cid) = none →
       get_credential_for_app b cid creds = .error .notFound)
    ∧ (∀ c, creds.find? (fun c => c.credential_id == cid) = some c → c.app_id ≠ b.id →
       get_credential_for_app b cid creds = .error .forbidden)
    ∧ (∀ c, creds.find? (fun c => c.credential_id == cid) = some c → c.app_id = b.id →
       c.is_active = false → get_credential_for_app b cid creds = .error .inactive)
    ∧ (∀ c, creds.find? (fun c => c.credential_id == cid) = some c → c.app_id = b.id →
       c.is_active = true → get_credential_for_app b cid creds = .ok c)
    ∧ (∀ c ∈ creds, (∀ c' ∈ creds, c'.credential_id = c.credential_id → c' = c) →
       c.app_id ≠ b.id →
       get_credential_for_app b c.credential_id creds = .error .forbidden)
    ∧ (CredError.notFound ≠ CredError.forbidden ∧ CredError.notFound ≠ CredError.inactive ∧
       CredError.forbidden ≠ CredError.inactive) := by
  refine ⟨?_, ?_, ?_, ?_, ?_, by decide, by decide, by decide⟩
  · intro h
    unfold get_credential_for_app
    rw [h]
  · intro c hc hne
    exact get_credential_forbidden b cid creds c hc hne
  · intro c hc heq hact
    unfold get_credential_for_app
    rw [hc]
    simp [heq, hact]
  · intro c hc heq hact
    unfold get_credential_for_app
    rw [hc]
    simp [heq, hact]
  · intro c hmem huniq hne
    exact get_credential_forbidden b c.credential_id creds c
      (find?_eq_of_mem_unique creds c hmem huniq) hne

/-- C4: the confirmation, result and timeout notification endpoints return
the fixed acknowledgment body ResultCode 0 / "Accepted" for every request
body, store state and internal outcome — unknown short code, failing ledger
write (`dbOk = false`), failing status query (`queryOk = false`), no matching
ledger entry, non-success result code. -/
theorem notification_ack_fixed
    (body : ConfirmationBody) (creds : List Credential) (apps : List App)
    (dbOk queryOk : Bool) (nextId : Nat) (ledger : List Transaction)
    (rbody : ResultBody) (rledger : List Transaction) :
    (confirmation_url body creds apps dbOk queryOk nextId ledger).1 =
      { ResultCode := 0, ResultDesc := "Accepted" }
    ∧ (result_url rbody rledger).1 = { ResultCode := 0, ResultDesc := "Accepted" }
    ∧ timeout_url = { ResultCode := 0, ResultDesc := "Accepted" } := by
  refine ⟨?_, ?_, rfl⟩
  · unfold confirmation_url
    dsimp only
    repeat' first | rfl | split
  · unfold result_url
    repeat' first | rfl | split

/-- C8 (code slip): the OAuth token request ignores the caller-supplied,
environment-specific base URL — utils.authenticator line 16 reassigns
base_url to the production host before building the URL — so a sandbox
credential's token request targets the production host, never the sandbox
one. -/
theorem oauth_url_ignores_environment :
    get_base_url "sandbox" = "https://sandbox.safaricom.co.ke/"
    ∧ authenticatorUrl (get_base_url "sandbox")
        = "https://api.safaricom.co.ke/oauth/v1/generate?grant_type=client_credentials"
    ∧ authenticatorUrl (get_base_url "sandbox")
        ≠ "https://sandbox.safaricom.co.ke/oauth/v1/generate?grant_type=client_credentials" := by
  refine ⟨by decide, rfl, by decide⟩

theorem result_url_enrich (body : ResultBody) (ledger : List Transaction)
    (rno dp : String)
    (hrc : resultCodeOf body = some 0)
    (hscan : scanParams (paramsOf body) = (some rno, some dp))
    (hrno : rno ≠ "") (hdp : dp ≠ "") :
    result_url body ledger =
      ({ ResultCode := 0, ResultDesc := "Accepted" },
       (updateFirst (fun t => t.transaction_number == rno) (enrich dp) ledger).getD ledger) := by
  unfold result_url
  rw [hrc, hscan]
  cases h : updateFirst (fun t => t.transaction_number == rno) (enrich dp) ledger with
  | none => simp [h, hrno, hdp]
  | some l' => simp [h, hrno, hdp]

/-- C5 amended: enrichment matches a LedgerEntry by transaction_number
equality only; when no entry matches, nothing is modified; but when more than
one entry matches, the handler does not skip — it enriches the first matching
entry (leaving every other entry, later matches included, unchanged). -/
theorem enrichment_match_discipline (body : ResultBody) (rno dp : String)
    (hrc : resultCodeOf body = some 0)
    (hscan : scanParams (paramsOf body) = (some rno, some dp))
    (hrno : rno ≠ "") (hdp : dp ≠ "") :
    (∀ ledger : List Transaction, (∀ t ∈ ledger, (t.transaction_number == rno) = false) →
       (result_url body ledger).2 = ledger)
    ∧ ∀ (l₁ l₂ : List Transaction) (x : Transaction),
        (∀ y ∈ l₁, (y.transaction_number == rno) = false) →
        (x.transaction_number == rno) = true →
        (result_url body (l₁ ++ x :: l₂)).2 = l₁ ++ enrich dp x :: l₂ := by
  constructor
  · intro ledger hnone
    rw [result_url_enrich body ledger rno dp hrc hscan hrno hdp]
    simp [(updateFirst_eq_none_iff _ _ _).mpr hnone]
  · intro l₁ l₂ x h1 hx
    rw [result_url_enrich body (l₁ ++ x :: l₂) rno dp hrc hscan hrno hdp]
    simp [updateFirst_append_cons _ _ l₁ l₂ x h1 hx]

/-- C5 amended witness: receipt R1 matched twice; the first entry is
enriched, the later duplicate untouched. -/
theorem enrichment_match_discipline_witness :
    (result_url
        ⟨some ⟨some 0, some ⟨some [.dict (some "ReceiptNo") (some "R1"),
          .dict (some "DebitPartyName") (some "254700111222 - JOHN DOE")]⟩⟩⟩
        ([] ++ ⟨1, 1, "ref", "R1", 10, "JOHN", none, "t1", none, some "600000"⟩ ::
          [⟨2, 1, "ref2", "R1", 20, "JANE", none, "t2", none, some "600000"⟩])).2 =
      [] ++ enrich "254700111222 - JOHN DOE"
          ⟨1, 1, "ref", "R1", 10, "JOHN", none, "t1", none, some "600000"⟩ ::
        [⟨2, 1, "ref2", "R1", 20, "JANE", none, "t2", none, some "600000"⟩] :=
  (enrichment_match_discipline
      ⟨some ⟨some 0, some ⟨some [.dict (some "ReceiptNo") (some "R1"),
        .dict (some "DebitPartyName") (some "254700111222 - JOHN DOE")]⟩⟩⟩
      "R1" "254700111222 - JOHN DOE" rfl rfl (by decide) (by decide)).2
    [] [⟨2, 1, "ref2", "R1", 20, "JANE", none, "t2", none, some "600000"⟩]
    ⟨1, 1, "ref", "R1", 10, "JOHN", none, "t1", none, some "600000"⟩
    (by simp) (by decide)

/-- C5 counterexample: two ledger entries share transaction_number R1, yet
the result notification for R1 is not skipped — the first entry is modified
(enriched), contradicting that enrichment is skipped whenever more than one
entry matches. -/
theorem enrichment_multi_match_counterexample :
    (result_url
        ⟨some ⟨some 0, some ⟨some [.dict (some "ReceiptNo") (some "R1"),
          .dict (some "DebitPartyName") (some "254700111222 - JOHN DOE")]⟩⟩⟩
        [⟨1, 1, "ref", "R1", 10, "JOHN", none, "t1", none, some "600000"⟩,
         ⟨2, 1, "ref2", "R1", 20, "JANE", none, "t2", none, some "600000"⟩]).2 =
      [⟨1, 1, "ref", "R1", 10, "JOHN", some "254700111222", "t1", some "JOHN DOE", some "600000"⟩,
       ⟨2, 1, "ref2", "R1", 20, "JANE", none, "t2", none, some "600000"⟩]
    ∧ (⟨1, 1, "ref", "R1", 10, "JOHN", some "254700111222", "t1", some "JOHN DOE",
          some "600000"⟩ : Transaction) ≠
        ⟨1, 1, "ref", "R1", 10, "JOHN", none, "t1", none, some "600000"⟩ := by
  exact ⟨rfl, by decide⟩

/-- C6 amended: the enrichment split cuts at the first occurrence of " - ",
then strips surrounding whitespace from both segments: phone receives the
first segment stripped (the whole string stripped when no separator occurs),
full name the stripped remainder (absent when no separator occurs). -/
theorem debit_party_split_amended (s : String) (hnosep : pySplit1 " - " s = [s])
    (t : Transaction) :
    enrich s t = { t with phone_number := some (pyStrip s), full_name := none }
    ∧ ∀ u : Transaction, enrich "254712345678 - JANE DOE" u =
        { u with phone_number := some "254712345678", full_name := some "JANE DOE" } := by
  constructor
  · unfold enrich
    rw [hnosep]
    rfl
  · intro u
    unfold enrich
    rfl

/-- C6 amended witness: a separator-free debit party goes wholly (stripped)
into the phone field, with no full name. -/
theorem debit_party_split_amended_witness :
    enrich "JANEDOE" ⟨1, 1, "r", "R1", 10, "J", none, "t", none, none⟩ =
      { (⟨1, 1, "r", "R1", 10, "J", none, "t", none, none⟩ : Transaction) with
          phone_number := some (pyStrip "JANEDOE"), full_name := none } :=
  (debit_party_split_amended "JANEDOE" rfl
    ⟨1, 1, "r", "R1", 10, "J", none, "t", none, none⟩).1

/-- C6 counterexample: the debit party " 254712345678" contains no " - "
separator, yet the phone field does not receive the whole string — the
leading space is stripped, so it receives "254712345678". -/
theorem debit_party_split_counterexample :
    (result_url
        ⟨some ⟨some 0, some ⟨some [.dict (some "ReceiptNo") (some "R1"),
          .dict (some "DebitPartyName") (some " 254712345678")]⟩⟩⟩
        [⟨1, 1, "ref", "R1", 10, "J", none, "t", none, none⟩]).2 =
      [⟨1, 1, "ref", "R1", 10, "J", some "254712345678", "t", none, none⟩]
    ∧ pySplit1 " - " " 254712345678" = [" 254712345678"]
    ∧ ("254712345678" : String) ≠ " 254712345678" := by
  exact ⟨rfl, rfl, by decide⟩

theorem result_url_cases (body : ResultBody) (ledger : List Transaction) :
    (result_url body ledger).2 = ledger ∨
    ∃ rno dp, updateFirst (fun t => t.transaction_number == rno) (enrich dp) ledger =
      some (result_url body ledger).2 := by
  unfold result_url
  repeat' first | exact Or.inl rfl | split
  next heq => exact Or.inr ⟨_, _, by rw [heq]⟩

/-- Fields of a ledger entry the enrichment path never writes. -/
def frameEq (a b : Transaction) : Prop :=
  a.id = b.id ∧ a.credential_id = b.credential_id
    ∧ a.account_reference = b.account_reference
    ∧ a.transaction_number = b.transaction_number
    ∧ a.trans_amount = b.trans_amount
    ∧ a.first_name = b.first_name
    ∧ a.trans_time = b.trans_time
    ∧ a.paybill_no = b.paybill_no

theorem frameEq_refl (t : Transaction) : frameEq t t := by
  simp [frameEq]

theorem frameEq_enrich (dp : String) (t : Transaction) : frameEq t (enrich dp t) := by
  simp [frameEq, enrich]

/-- C10: for every result notification, the enrichment path neither creates
nor deletes ledger entries (length preserved), every entry keeps its
transaction number, amount, first name, transaction time, account reference,
short code, owning credential and id (frameEq holds positionwise), and at
most one position of the ledger differs at all. -/
theorem enrichment_frame (body : ResultBody) (ledger : List Transaction) :
    (result_url body ledger).2.length = ledger.length
    ∧ (∀ i a b, ledger.get? i = some a → (result_url body ledger).2.get? i = some b →
        frameEq a b)
    ∧ ∃ j, ∀ i, i ≠ j → (result_url body ledger).2.get? i = ledger.get? i := by
  rcases result_url_cases body ledger with h | ⟨rno, dp, hupd⟩
  · rw [h]
    refine ⟨rfl, ?_, ⟨0, fun i _ => rfl⟩⟩
    intro i a b ha hb
    rw [ha] at hb
    injection hb with hb
    rw [← hb]
    exact frameEq_refl a
  · obtain ⟨l₁, x, l₂, hdec, hnom, hx, hres⟩ :=
      updateFirst_eq_some_decomp _ _ ledger _ hupd
    refine ⟨?_, ?_, ⟨l₁.length, ?_⟩⟩
    · rw [hres, hdec]
      simp
    · intro i a b ha hb
      rw [hdec] at ha
      rw [hres] at hb
      by_cases hi : i = l₁.length
      · subst hi
        have hxa : (l₁ ++ x :: l₂).get? l₁.length = some x := by
          rw [List.get?_append_right (Nat.le_refl _)]
          simp
        have hxb : (l₁ ++ enrich dp x :: l₂).get? l₁.length = some (enrich dp x) := by
          rw [List.get?_append_right (Nat.le_refl _)]
          simp
        rw [hxa] at ha
        rw [hxb] at hb
        injection ha with ha
        injection hb with hb
        rw [← ha, ← hb]
        exact frameEq_enrich dp x
      · rw [get?_append_cons_ne l₁ l₂ (enrich dp x) x i hi] at hb
        rw [ha] at hb
        injection hb with hb
        rw [← hb]
        exact frameEq_refl a
    · intro i hi
      rw [hres, hdec]
      exact get?_append_cons_ne l₁ l₂ (enrich dp x) x i hi

end Mpesa
